import Mathlib

/-!
Verification of the dependency-health reporting service (`main.py`).

The development shallowly embeds the health-evaluation pipeline:
the dependency parser, the registry and vulnerability clients
(with their external HTTP responses modelled as oracle functions),
the health evaluator, and the aggregator.  External lookups are
modelled by passing the (possibly failing) response explicitly:
`none` stands for a raised exception (network error / malformed
body), `some r` for a received response with its status code.
-/

/-- Mirrors the `PackageDependency` pydantic model: a package name and an
optional declared version. -/
structure PackageDependency where
  name : String
  version : Option String
deriving DecidableEq, Repr

/-- Mirrors the `PackageHealthResponse` pydantic model. -/
structure Vulnerability where
  id : Option String
  summary : String
  severity : String
  published : String
deriving DecidableEq, Repr

structure PackageHealthResponse where
  name : String
  current_version : Option String
  latest_version : Option String
  is_outdated : Bool
  has_vulnerabilities : Bool
  vulnerability_count : Nat
  is_deprecated : Bool
  health_score : Int
  recommendation : String
  vulnerabilities : List Vulnerability
deriving DecidableEq, Repr

/-- Mirrors the `OverallHealthResponse` pydantic model. -/
structure OverallHealthResponse where
  total_packages : Nat
  outdated_count : Nat
  vulnerable_count : Nat
  deprecated_count : Nat
  overall_health_score : Int
  packages : List PackageHealthResponse
deriving DecidableEq, Repr

/-- A PyPI JSON response as far as `check_pypi_package` inspects it:
the HTTP status, the value of `data['info']['version']` (`none` when the
key path is missing, which raises `KeyError` in the original and lands in
the `except` branch), and the keys of `data['releases']`. -/
structure PyPIResp where
  status : Nat
  info_version : Option String
  releases : List String
deriving DecidableEq, Repr

/-- An npm registry JSON response as far as `check_npm_package` inspects it:
the HTTP status, `data.get('dist-tags', {}).get('latest')`, and the
truthiness of `data.get('deprecated', False)`. -/
structure NpmResp where
  status : Nat
  latest : Option String
  deprecated : Bool
deriving DecidableEq, Repr

/-- One entry of an OSV advisory's `severity` array; the original reads its
`type` key. -/
structure SevEntry where
  sevType : Option String
deriving DecidableEq, Repr

/-- An OSV advisory as far as `check_vulnerabilities_osv` inspects it; every
field is optional, `none` meaning the key is absent (or JSON null). -/
structure OSVVuln where
  id : Option String
  summary : Option String
  severity : Option (List SevEntry)
  published : Option String
deriving DecidableEq, Repr

/-- An OSV query response: HTTP status and `data.get('vulns', [])`. -/
structure OSVResp where
  status : Nat
  vulns : List OSVVuln
deriving DecidableEq, Repr

/-- The result dictionary of `check_pypi_package`. -/
structure PyPIInfo where
  latest_version : Option String
  is_outdated : Bool
  releases : List String
deriving DecidableEq, Repr

/-- The result dictionary of `check_npm_package`. -/
structure NpmInfo where
  latest_version : Option String
  is_outdated : Bool
  deprecated : Bool
deriving DecidableEq, Repr

/-! ### Parser primitives -/

/-- The characters stripped by Python's default `str.strip()` on ASCII text. -/
def pyWS (c : Char) : Bool :=
  c == ' ' || c == '\t' || c == '\n' || c == '\r' || c == '\x0b' || c == '\x0c'

/-- Python `s.strip()` on a character list. -/
def pyStripL (s : List Char) : List Char :=
  ((s.dropWhile pyWS).reverse.dropWhile pyWS).reverse

/-- Python `s.strip()` on a string. -/
def pyStrip (s : String) : String :=
  String.mk (pyStripL s.data)

/-- Whether the pattern is an initial segment of the text (Python
`s.startswith(pat)` at a fixed position). -/
def leadsAt : List Char → List Char → Bool
  | [], _ => true
  | _ :: _, [] => false
  | a :: as, b :: bs => a == b && leadsAt as bs

/-- Index of the first occurrence of `pat` in `s` (Python `s.find(pat)`,
with `none` for "not found"); both `op in s` and `s.split(op, 1)` are
defined through it. -/
def firstOcc (pat : List Char) : List Char → Option Nat
  | [] => if leadsAt pat [] then some 0 else none
  | c :: t => if leadsAt pat (c :: t) then some 0 else (firstOcc pat t).map (· + 1)

/-- The operator list of the `/analyze/python` parsing loop, in its
priority order. -/
def pyOps : List (List Char) :=
  [['=', '='], ['>', '='], ['<', '='], ['>'], ['<'], ['~', '=']]

/-- The `for op in [...]` loop body: the first operator of the list that
occurs in `s` wins, and `s` is split at that operator's first occurrence
(Python `s.split(op, 1)`); `none` mirrors the loop's `else` clause. -/
def opSplit : List (List Char) → List Char → Option (List Char × List Char)
  | [], _ => none
  | op :: rest, s =>
    match firstOcc op s with
    | some i => some (s.take i, s.drop (i + op.length))
    | none => opSplit rest s

/-- One iteration of the parsing loop of `analyze_python_dependencies`
(lines 212–226): strip, skip blanks and `#` comments, then split at the
winning operator, stripping name and version. -/
def parseEntry (s : String) : Option PackageDependency :=
  if pyStripL s.data = [] then none
  else if (pyStripL s.data).head? = some '#' then none
  else
    match opSplit pyOps (pyStripL s.data) with
    | some (a, b) => some ⟨String.mk (pyStripL a), some (String.mk (pyStripL b))⟩
    | none => some ⟨String.mk (pyStripL s.data), none⟩

/-- The version-prefix characters removed by `version.lstrip('^~>=<')`. -/
def npmStripChar (c : Char) : Bool :=
  c == '^' || c == '~' || c == '>' || c == '=' || c == '<'

/-- Python `version.lstrip('^~>=<')`. -/
def lstripVer (v : String) : String :=
  String.mk (v.data.dropWhile npmStripChar)

/-- First value bound to key `k` in an association list (dictionary lookup). -/
def lookupVal (m : List (String × String)) (k : String) : Option String :=
  (m.find? (fun p => p.1 == k)).map (fun p => p.2)

/-- Python's dict merge `{**a, **b}` on insertion-ordered dictionaries:
keys of `a` keep their position but take `b`'s value on collision, and
keys of `b` not present in `a` are appended in `b`'s order. -/
def mergeDeps (a b : List (String × String)) : List (String × String) :=
  (a.map (fun p =>
    match lookupVal b p.1 with
    | some v => (p.1, v)
    | none => p))
  ++ b.filter (fun p => (lookupVal a p.1).isNone)

/-! ### Clients -/

/-- Python truthiness of an optional string (`None` and `""` are falsy). -/
def truthy : Option String → Bool
  | none => false
  | some s => s ≠ ""

/-- `check_pypi_package` (lines 86–102), with the HTTP interaction replaced
by the explicit response `resp` (`none` = raised exception). -/
def check_pypi_package (resp : Option PyPIResp) (current_version : Option String) :
    PyPIInfo :=
  match resp with
  | none => ⟨none, false, []⟩
  | some r =>
    if r.status = 200 then
      match r.info_version with
      | none => ⟨none, false, []⟩
      | some lv =>
        ⟨some lv,
         if truthy current_version then decide (current_version.getD "" ≠ lv) else false,
         r.releases⟩
    else ⟨none, false, []⟩

/-- `check_npm_package` (lines 104–120), with the HTTP interaction replaced
by the explicit response `resp`. -/
def check_npm_package (resp : Option NpmResp) (current_version : Option String) :
    NpmInfo :=
  match resp with
  | none => ⟨none, false, false⟩
  | some r =>
    if r.status = 200 then
      { latest_version := r.latest,
        is_outdated :=
          if truthy current_version && truthy r.latest then
            decide (current_version.getD "" ≠ r.latest.getD "")
          else false,
        deprecated := r.deprecated }
    else ⟨none, false, false⟩

/-- The per-advisory mapping inside `check_vulnerabilities_osv`
(lines 141–147). -/
def osvMap (v : OSVVuln) : Vulnerability :=
  { id := v.id,
    summary := v.summary.getD "No summary available",
    severity :=
      match v.severity with
      | none => "UNKNOWN"
      | some [] => "UNKNOWN"
      | some (e :: _) => e.sevType.getD "UNKNOWN",
    published := v.published.getD "" }

/-- `check_vulnerabilities_osv` (lines 122–151); `osvO` maps a package name
and an ecosystem tag to the response of the OSV query (`none` = raised
exception). -/
def check_vulnerabilities_osv (osvO : String → String → Option OSVResp)
    (package_name ecosystem : String) : List Vulnerability :=
  let tag := if ecosystem = "python" then "PyPI" else "npm"
  match osvO package_name tag with
  | none => []
  | some r => if r.status = 200 then r.vulns.map osvMap else []

/-! ### Health evaluator -/

/-- `calculate_health_score` (lines 153–164). -/
def calculate_health_score (is_outdated : Bool) (vuln_count : Nat)
    (is_deprecated : Bool) : Int :=
  let score : Int := 100
  let score := if is_outdated then score - 20 else score
  let score := if vuln_count > 0 then score - (min (vuln_count * 15) 50 : Nat) else score
  let score := if is_deprecated then score - 30 else score
  max score 0

/-- `get_recommendation` (lines 166–175). -/
def get_recommendation (health_score : Int) (is_outdated : Bool) (vuln_count : Nat)
    (is_deprecated : Bool) : String :=
  if is_deprecated then
    "⚠️ CRITICAL: Package is deprecated. Find an alternative immediately."
  else if vuln_count > 0 then
    "🚨 URGENT: " ++ toString vuln_count ++ " vulnerabilities found. Update immediately."
  else if is_outdated then
    "⚡ Update recommended to latest version."
  else
    "✅ Package is healthy and up-to-date."

/-! ### Aggregator and endpoints -/

/-- The per-package loop body of `analyze_python_dependencies`
(lines 236–268): PyPI lookup, OSV lookup, evaluation.  `is_deprecated` is
hard-coded `false` for the Python ecosystem. -/
def analyzePackagePy (pypiO : String → Option PyPIResp)
    (osvO : String → String → Option OSVResp) (pkg : PackageDependency) :
    PackageHealthResponse :=
  let info := check_pypi_package (pypiO pkg.name) pkg.version
  let vulns := check_vulnerabilities_osv osvO pkg.name "python"
  let hs := calculate_health_score info.is_outdated vulns.length false
  { name := pkg.name,
    current_version := pkg.version,
    latest_version := info.latest_version,
    is_outdated := info.is_outdated,
    has_vulnerabilities := decide (0 < vulns.length),
    vulnerability_count := vulns.length,
    is_deprecated := false,
    health_score := hs,
    recommendation := get_recommendation hs info.is_outdated vulns.length false,
    vulnerabilities := vulns }

/-- The per-package loop body of `analyze_npm_dependencies`
(lines 316–348). -/
def analyzePackageNpm (npmO : String → Option NpmResp)
    (osvO : String → String → Option OSVResp) (pkg : PackageDependency) :
    PackageHealthResponse :=
  let info := check_npm_package (npmO pkg.name) pkg.version
  let vulns := check_vulnerabilities_osv osvO pkg.name "npm"
  let hs := calculate_health_score info.is_outdated vulns.length info.deprecated
  { name := pkg.name,
    current_version := pkg.version,
    latest_version := info.latest_version,
    is_outdated := info.is_outdated,
    has_vulnerabilities := decide (0 < vulns.length),
    vulnerability_count := vulns.length,
    is_deprecated := info.deprecated,
    health_score := hs,
    recommendation := get_recommendation hs info.is_outdated vulns.length info.deprecated,
    vulnerabilities := vulns }

/-- Line 271/351: `sum(r.health_score for r in results) // len(results) if
results else 0`; Python `//` is floor division, i.e. `Int.fdiv`. -/
def overallScore (results : List PackageHealthResponse) : Int :=
  if results = [] then 0
  else Int.fdiv ((results.map (fun r => r.health_score)).sum) (results.length : Int)

/-- The summary assembly shared by both batch endpoints (lines 250–255 and
273–280): counts of the three flags, overall score, per-package results. -/
def buildOverall (results : List PackageHealthResponse) : OverallHealthResponse :=
  { total_packages := results.length,
    outdated_count := results.countP (fun r => r.is_outdated),
    vulnerable_count := results.countP (fun r => r.has_vulnerabilities),
    deprecated_count := results.countP (fun r => r.is_deprecated),
    overall_health_score := overallScore results,
    packages := results }

/-- `analyze_python_dependencies` (lines 197–280); an `HTTPException` is
modelled as `Except.error` carrying its `detail` string. -/
def analyze_python_dependencies (pypiO : String → Option PyPIResp)
    (osvO : String → String → Option OSVResp) (reqPackages : List String) :
    Except String OverallHealthResponse :=
  let packages := reqPackages.filterMap parseEntry
  if packages = [] then
    .error "No valid packages found in the provided content"
  else
    .ok (buildOverall (packages.map (analyzePackagePy pypiO osvO)))

/-- The dependency normalization of `analyze_npm_dependencies`
(lines 298–306): merge the two maps, keep the name, lstrip the version. -/
def npmParse (deps devDeps : List (String × String)) : List PackageDependency :=
  (mergeDeps deps devDeps).map (fun p => ⟨p.1, some (lstripVer p.2)⟩)

/-- `analyze_npm_dependencies` (lines 282–360). -/
def analyze_npm_dependencies (npmO : String → Option NpmResp)
    (osvO : String → String → Option OSVResp)
    (deps devDeps : List (String × String)) :
    Except String OverallHealthResponse :=
  let packages := npmParse deps devDeps
  if packages = [] then
    .error "No valid packages found in the provided content"
  else
    .ok (buildOverall (packages.map (analyzePackageNpm npmO osvO)))

/-- `check_single_package` (lines 362–396).  For the Python branch the
info dictionary has no `deprecated` key, so `.get('deprecated', False)`
yields `false`. -/
def check_single_package (pypiO : String → Option PyPIResp)
    (npmO : String → Option NpmResp) (osvO : String → String → Option OSVResp)
    (package : PackageDependency) (ecosystem : String) :
    Except String PackageHealthResponse :=
  if ecosystem ≠ "python" ∧ ecosystem ≠ "npm" then
    .error "Ecosystem must be 'python' or 'npm'"
  else
    let info : NpmInfo :=
      if ecosystem = "python" then
        let p := check_pypi_package (pypiO package.name) package.version
        ⟨p.latest_version, p.is_outdated, false⟩
      else check_npm_package (npmO package.name) package.version
    let vulns := check_vulnerabilities_osv osvO package.name ecosystem
    let hs := calculate_health_score info.is_outdated vulns.length info.deprecated
    .ok { name := package.name,
          current_version := package.version,
          latest_version := info.latest_version,
          is_outdated := info.is_outdated,
          has_vulnerabilities := decide (0 < vulns.length),
          vulnerability_count := vulns.length,
          is_deprecated := info.deprecated,
          health_score := hs,
          recommendation := get_recommendation hs info.is_outdated vulns.length info.deprecated,
          vulnerabilities := vulns }

/-! ### Spec-side definitions (for refinement claims) -/

/-- Modelled from the spec's recommendation rules (§4.4): single-winner
priority, independent of the numeric score — which is why this definition,
unlike `get_recommendation`, takes no score argument. -/
def specRecommendation (is_outdated : Bool) (vuln_count : Nat)
    (is_deprecated : Bool) : String :=
  if is_deprecated then
    "⚠️ CRITICAL: Package is deprecated. Find an alternative immediately."
  else if vuln_count > 0 then
    "🚨 URGENT: " ++ toString vuln_count ++ " vulnerabilities found. Update immediately."
  else if is_outdated then
    "⚡ Update recommended to latest version."
  else
    "✅ Package is healthy and up-to-date."

/-- Modelled from the spec's advisory mapping (§4.3): summary defaults to
"No summary available" when absent; severity is the `type` of the first
entry of the severity field, "UNKNOWN" when the field or its first entry
is missing. -/
def specMapVuln (v : OSVVuln) : Vulnerability :=
  { id := v.id,
    summary := match v.summary with
      | none => "No summary available"
      | some s => s,
    severity := match v.severity with
      | none => "UNKNOWN"
      | some l =>
        match l.head? with
        | none => "UNKNOWN"
        | some e =>
          match e.sevType with
          | none => "UNKNOWN"
          | some t => t,
    published := v.published.getD "" }

/-! ### Failure predicates (spec §4.2/§4.3 failure policy) -/

/-- A failed PyPI lookup: raised exception (network error or malformed
body), non-success status, or a 200 body without the `info.version` path. -/
def pypiFailure (resp : Option PyPIResp) : Prop :=
  resp = none ∨ ∃ r, resp = some r ∧ (r.status ≠ 200 ∨ r.info_version = none)

/-- A failed OSV lookup: raised exception or non-success status. -/
def osvFailure (resp : Option OSVResp) : Prop :=
  resp = none ∨ ∃ r, resp = some r ∧ r.status ≠ 200

/-- `op` occurs in `t` at index `i`. -/
def occursAt (op t : List Char) (i : Nat) : Prop :=
  leadsAt op (t.drop i) = true

instance (op t : List Char) (i : Nat) : Decidable (occursAt op t i) := by
  unfold occursAt; infer_instance

/-- A sample per-package result carrying a given health score; used to
state the aggregator examples. -/
def samplePkg (hs : Int) : PackageHealthResponse :=
  { name := "p", current_version := none, latest_version := none,
    is_outdated := false, has_vulnerabilities := false,
    vulnerability_count := 0, is_deprecated := false, health_score := hs,
    recommendation := "", vulnerabilities := [] }

/-! ### Sanity examples -/

example : parseEntry "flask==2.0.1" = some ⟨"flask", some "2.0.1"⟩ := by decide
example : parseEntry "  numpy  " = some ⟨"numpy", none⟩ := by decide
example : parseEntry "# comment" = none := by decide
example : parseEntry "   " = none := by decide
example : parseEntry "requests >= 2.25.0" = some ⟨"requests", some "2.25.0"⟩ := by decide
example : parseEntry "a~=1.0" = some ⟨"a", some "1.0"⟩ := by decide
example : parseEntry ">=1==2" = some ⟨">=1", some "2"⟩ := by decide
example : parseEntry "==1.0" = some ⟨"", some "1.0"⟩ := by decide
example : lstripVer "^4.17.1" = "4.17.1" := by decide
example : calculate_health_score false 4 false = 50 := by decide
example : calculate_health_score true 4 true = 0 := by decide
example : overallScore [samplePkg 100, samplePkg 50, samplePkg 30] = 60 := by decide

/-! ### Helper lemmas about the substring-search primitives -/

theorem leadsAt_append (op t : List Char) : leadsAt op (op ++ t) = true := by
  induction op with
  | nil => rfl
  | cons c cs ih => simp [leadsAt, ih]

theorem leadsAt_nil_false (op : List Char) (h : op ≠ []) : leadsAt op [] = false := by
  cases op with
  | nil => exact absurd rfl h
  | cons c cs => rfl

theorem firstOcc_spec_some (op : List Char) :
    ∀ (s : List Char) (i : Nat), firstOcc op s = some i →
      leadsAt op (s.drop i) = true ∧ ∀ j, j < i → leadsAt op (s.drop j) = false := by
  intro s
  induction s with
  | nil =>
    intro i h
    simp only [firstOcc] at h
    split at h
    · next hl =>
      cases h
      exact ⟨by simpa using hl, fun j hj => absurd hj (by omega)⟩
    · cases h
  | cons c t ih =>
    intro i h
    simp only [firstOcc] at h
    split at h
    · next hl =>
      cases h
      exact ⟨by simpa using hl, fun j hj => absurd hj (by omega)⟩
    · next hl =>
      rcases hmap : firstOcc op t with _ | i'
      · rw [hmap] at h; cases h
      · rw [hmap] at h
        simp only [Option.map_some'] at h
        cases h
        obtain ⟨h1, h2⟩ := ih i' hmap
        refine ⟨h1, ?_⟩
        intro j hj
        cases j with
        | zero => rw [List.drop_zero]; simpa using hl
        | succ j' => exact h2 j' (by omega)

theorem firstOcc_of_spec (op : List Char) (hop : op ≠ []) :
    ∀ (s : List Char) (i : Nat),
      leadsAt op (s.drop i) = true → (∀ j, j < i → leadsAt op (s.drop j) = false) →
      firstOcc op s = some i := by
  intro s
  induction s with
  | nil =>
    intro i h1 _
    rw [List.drop_nil, leadsAt_nil_false op hop] at h1
    cases h1
  | cons c t ih =>
    intro i h1 h2
    cases i with
    | zero =>
      simp only [firstOcc]
      rw [if_pos (by simpa using h1)]
    | succ i' =>
      have h0 : leadsAt op (c :: t) = false := by simpa using h2 0 (by omega)
      simp only [firstOcc, h0, if_false, Bool.false_eq_true]
      rw [ih i' h1 (fun j hj => h2 (j + 1) (by omega))]
      rfl

theorem firstOcc_none_of (op : List Char) (hop : op ≠ []) :
    ∀ (s : List Char), (∀ j, j ≤ s.length → leadsAt op (s.drop j) = false) →
      firstOcc op s = none := by
  intro s
  induction s with
  | nil =>
    intro h
    have h0 : leadsAt op [] = false := h 0 (by simp)
    simp [firstOcc, h0]
  | cons c t ih =>
    intro h
    have h0 : leadsAt op (c :: t) = false := h 0 (by omega)
    simp only [firstOcc, h0, if_false, Bool.false_eq_true]
    rw [ih (fun j hj => h (j + 1) (by simp; omega))]
    rfl

theorem opSplit_skip (t : List Char) : ∀ (pre rest : List (List Char)),
    (∀ op ∈ pre, firstOcc op t = none) → opSplit (pre ++ rest) t = opSplit rest t := by
  intro pre
  induction pre with
  | nil => intro rest _; rfl
  | cons op pre ih =>
    intro rest h
    have h0 := h op (List.mem_cons_self op pre)
    simp only [List.cons_append, opSplit, h0]
    exact ih rest (fun o ho => h o (List.mem_cons_of_mem _ ho))

/-- Core parser characterization: when the trimmed entry decomposes as
`a ++ op ++ b` where `op` is the priority-first operator of `pyOps`
occurring in it and `a.length` is its first occurrence, the parser yields
the trimmed pieces around that occurrence. -/
theorem parseEntry_core (entry : String) (pre post : List (List Char))
    (op a b : List Char)
    (hops : pyOps = pre ++ op :: post)
    (ht : pyStripL entry.data = a ++ op ++ b)
    (hhash : (a ++ op ++ b).head? ≠ some '#')
    (hpre : ∀ op' ∈ pre, ∀ j ≤ (a ++ op ++ b).length, ¬ occursAt op' (a ++ op ++ b) j)
    (hmin : ∀ j < a.length, ¬ occursAt op (a ++ op ++ b) j) :
    parseEntry entry = some ⟨String.mk (pyStripL a), some (String.mk (pyStripL b))⟩ := by
  have hne : ∀ o ∈ pyOps, o ≠ [] := by decide
  have hopmem : op ∈ pyOps := by
    rw [hops]; exact List.mem_append_right _ (List.mem_cons_self _ _)
  have hopne : op ≠ [] := hne op hopmem
  have htne : a ++ op ++ b ≠ [] := by
    intro hcon
    rcases List.append_eq_nil.mp hcon with ⟨h1, _⟩
    rcases List.append_eq_nil.mp h1 with ⟨_, h3⟩
    exact hopne h3
  have hpre' : ∀ op' ∈ pre, firstOcc op' (a ++ op ++ b) = none := by
    intro op' hmem
    have hop'ne : op' ≠ [] := hne op' (by rw [hops]; exact List.mem_append_left _ hmem)
    apply firstOcc_none_of op' hop'ne
    intro j hj
    have hno := hpre op' hmem j hj
    unfold occursAt at hno
    cases hb : leadsAt op' ((a ++ op ++ b).drop j)
    · rfl
    · exact absurd hb hno
  have hfirst : firstOcc op (a ++ op ++ b) = some a.length := by
    apply firstOcc_of_spec op hopne
    · have hd : (a ++ op ++ b).drop a.length = op ++ b := by
        rw [List.append_assoc]; exact List.drop_left a (op ++ b)
      rw [hd]; exact leadsAt_append op b
    · intro j hj
      have hno := hmin j hj
      unfold occursAt at hno
      cases hb : leadsAt op ((a ++ op ++ b).drop j)
      · rfl
      · exact absurd hb hno
  have htake : (a ++ op ++ b).take a.length = a := by
    rw [List.append_assoc]; exact List.take_left a (op ++ b)
  have hdrop : (a ++ op ++ b).drop (a.length + op.length) = b := by
    rw [List.append_assoc, ← List.drop_drop, List.drop_left a (op ++ b),
      List.drop_left op b]
  unfold parseEntry
  rw [ht, if_neg htne, if_neg hhash, hops,
    opSplit_skip (a ++ op ++ b) pre (op :: post) hpre']
  simp only [opSplit, hfirst, htake, hdrop]

/-- Core parser characterization, no-operator case: when no operator of
`pyOps` occurs anywhere in the trimmed entry, the whole trimmed entry is
the name and there is no version. -/
theorem parseEntry_noop (entry : String) (t : List Char)
    (ht : pyStripL entry.data = t) (htne : t ≠ [])
    (hhash : t.head? ≠ some '#')
    (hnone : ∀ op ∈ pyOps, ∀ j ≤ t.length, ¬ occursAt op t j) :
    parseEntry entry = some ⟨String.mk t, none⟩ := by
  have hne : ∀ o ∈ pyOps, o ≠ [] := by decide
  have hnone' : ∀ op ∈ pyOps, firstOcc op t = none := by
    intro op hmem
    apply firstOcc_none_of op (hne op hmem)
    intro j hj
    have hno := hnone op hmem j hj
    unfold occursAt at hno
    cases hb : leadsAt op (t.drop j)
    · rfl
    · exact absurd hb hno
  have hsplit : opSplit pyOps t = none := by
    rw [show pyOps = pyOps ++ [] by simp, opSplit_skip t pyOps [] hnone']
    rfl
  unfold parseEntry
  rw [ht, if_neg htne, if_neg hhash, hsplit]

/-! ### Claim C1 -/

/-- Claim C1: for every input triple, `calculate_health_score` equals
`max 0 (100 - (20 if outdated) - (min(count*15, 50) if count > 0) -
(30 if deprecated))`; the penalties stack additively and the result is
never negative. -/
theorem C1_health_score_formula :
    ∀ (is_outdated : Bool) (vuln_count : Nat) (is_deprecated : Bool),
      calculate_health_score is_outdated vuln_count is_deprecated =
        max 0 (100 - (if is_outdated then 20 else 0)
                 - (if 0 < vuln_count then min ((vuln_count : Int) * 15) 50 else 0)
                 - (if is_deprecated then 30 else 0)) ∧
      0 ≤ calculate_health_score is_outdated vuln_count is_deprecated := by
  intro o v d
  refine ⟨?_, ?_⟩ <;>
  · simp only [calculate_health_score]
    cases o <;> cases d <;> split_ifs <;> push_cast <;> omega

/-! ### Claim C2 -/

/-- Claim C2: the recommendation is chosen by single-winner priority
(deprecated, then vulnerabilities with the exact count, then outdated,
then healthy), independently of the numeric score; in particular a
deprecated package always gets the deprecation message. -/
theorem C2_recommendation_priority :
    (∀ (score : Int) (is_outdated : Bool) (vuln_count : Nat) (is_deprecated : Bool),
       get_recommendation score is_outdated vuln_count is_deprecated =
         specRecommendation is_outdated vuln_count is_deprecated)
  ∧ (∀ (s₁ s₂ : Int) (is_outdated : Bool) (vuln_count : Nat) (is_deprecated : Bool),
       get_recommendation s₁ is_outdated vuln_count is_deprecated =
         get_recommendation s₂ is_outdated vuln_count is_deprecated)
  ∧ (∀ (score : Int) (is_outdated : Bool) (vuln_count : Nat),
       get_recommendation score is_outdated vuln_count true =
         "⚠️ CRITICAL: Package is deprecated. Find an alternative immediately.") := by
  refine ⟨fun _ _ _ _ => rfl, fun _ _ _ _ _ => rfl, fun _ _ _ => rfl⟩

/-! ### Claim C9 -/

/-- Claim C9: the score is monotonically non-increasing in each penalty
input: one more vulnerability, marking deprecated, or marking outdated
never increases the score. -/
theorem C9_score_monotone :
    ∀ (is_outdated : Bool) (vuln_count : Nat) (is_deprecated : Bool),
      calculate_health_score is_outdated (vuln_count + 1) is_deprecated ≤
        calculate_health_score is_outdated vuln_count is_deprecated ∧
      calculate_health_score is_outdated vuln_count true ≤
        calculate_health_score is_outdated vuln_count false ∧
      calculate_health_score true vuln_count is_deprecated ≤
        calculate_health_score false vuln_count is_deprecated := by
  intro o v d
  refine ⟨?_, ?_, ?_⟩ <;>
  · simp only [calculate_health_score]
    cases o <;> cases d <;> split_ifs <;> push_cast <;> omega

/-! ### Claim C4 -/

/-- Claim C4: for a non-empty, non-comment entry, the parser scans for the
first operator (in the priority order of `pyOps`) that occurs in the
trimmed entry and splits at that operator's first occurrence, trimming
both pieces; when no operator occurs, the whole trimmed entry is the name
with no version. -/
theorem C4_parser_operator_split :
    (∀ (entry : String) (pre post : List (List Char)) (op a b : List Char),
       pyOps = pre ++ op :: post →
       pyStripL entry.data = a ++ op ++ b →
       (a ++ op ++ b).head? ≠ some '#' →
       (∀ op' ∈ pre, ∀ j ≤ (a ++ op ++ b).length, ¬ occursAt op' (a ++ op ++ b) j) →
       (∀ j < a.length, ¬ occursAt op (a ++ op ++ b) j) →
       parseEntry entry = some ⟨String.mk (pyStripL a), some (String.mk (pyStripL b))⟩)
  ∧ (∀ (entry : String) (t : List Char),
       pyStripL entry.data = t → t ≠ [] → t.head? ≠ some '#' →
       (∀ op ∈ pyOps, ∀ j ≤ t.length, ¬ occursAt op t j) →
       parseEntry entry = some ⟨String.mk t, none⟩) :=
  ⟨parseEntry_core, parseEntry_noop⟩

/-- Witness for C4: the split case on `" flask == 2.0.1 "` (operator `==`
with whitespace trimmed from both pieces) and the no-operator case on
`"numpy"`. -/
theorem C4_parser_operator_split_witness :
    parseEntry " flask == 2.0.1 " = some ⟨"flask", some "2.0.1"⟩ ∧
    parseEntry "numpy" = some ⟨"numpy", none⟩ := by
  constructor
  · have h := C4_parser_operator_split.1 " flask == 2.0.1 "
      [] [['>', '='], ['<', '='], ['>'], ['<'], ['~', '=']] ['=', '=']
      ("flask " : String).data (" 2.0.1" : String).data
      rfl (by decide) (by decide) (by simp) (by decide)
    exact h.trans (by decide)
  · have h := C4_parser_operator_split.2 "numpy" ("numpy" : String).data
      (by decide) (by decide) (by decide) (by decide)
    exact h.trans (by decide)

/-! ### Claim C10 -/

/-- Counterexample to claim C10 as stated: the entry `">=1==2"` is
non-empty after trimming, is no comment, and begins with the comparison
operator `">="`, yet the parser does not produce an empty name with the
text after that operator as version: the priority scan finds `"=="` first
and yields name `">=1"`, version `"2"`. -/
theorem C10_counterexample :
    pyStripL (">=1==2" : String).data ≠ [] ∧
    (pyStripL (">=1==2" : String).data).head? ≠ some '#' ∧
    (pyOps.any fun op => leadsAt op (pyStripL (">=1==2" : String).data)) = true ∧
    parseEntry ">=1==2" ≠ some ⟨"", some "1==2"⟩ ∧
    parseEntry ">=1==2" = some ⟨">=1", some "2"⟩ ∧
    (">=1" : String) ≠ "" := by
  refine ⟨by decide, by decide, by decide, by decide, by decide, by decide⟩

/-- Claim C10 (amended): for every Endpoint A entry whose trimmed text
begins with the priority-first operator occurring in it (for example
`"==1.0"`), the parser does not skip the entry: it produces a Dependency
with empty name and the trimmed text after the operator as version, and
that Dependency flows through the external lookups and is included in the
response like any other package. -/
theorem C10_empty_name_processed :
    ∀ (entry : String) (pre post : List (List Char)) (op b : List Char)
      (pypiO : String → Option PyPIResp) (osvO : String → String → Option OSVResp),
      pyOps = pre ++ op :: post →
      pyStripL entry.data = op ++ b →
      (∀ op' ∈ pre, ∀ j ≤ (op ++ b).length, ¬ occursAt op' (op ++ b) j) →
      parseEntry entry = some ⟨"", some (String.mk (pyStripL b))⟩ ∧
      analyze_python_dependencies pypiO osvO [entry] =
        .ok (buildOverall [analyzePackagePy pypiO osvO ⟨"", some (String.mk (pyStripL b))⟩]) := by
  intro entry pre post op b pO oO hops ht hpre
  have hopmem : op ∈ pyOps := by
    rw [hops]; exact List.mem_append_right _ (List.mem_cons_self _ _)
  have hhd : ∀ o ∈ pyOps, o.head? ≠ some '#' := by decide
  have hhash : (op ++ b).head? ≠ some '#' := by
    cases op with
    | nil => exact absurd hopmem (by decide)
    | cons c cs => simpa using hhd _ hopmem
  have hcore := parseEntry_core entry pre post op [] b hops (by simpa using ht)
    (by simpa using hhash) (by simpa using hpre) (fun j hj => absurd hj (by simp))
  have hp : parseEntry entry = some ⟨"", some (String.mk (pyStripL b))⟩ := by
    rw [hcore]; rfl
  refine ⟨hp, ?_⟩
  simp only [analyze_python_dependencies, List.filterMap_cons, hp, List.filterMap_nil,
    List.map_cons, List.map_nil]
  rw [if_neg (by simp)]

/-- Witness for the amended C10 at the entry `"==1.0"` with always-failing
oracles. -/
theorem C10_empty_name_processed_witness :
    parseEntry "==1.0" = some ⟨"", some "1.0"⟩ ∧
    analyze_python_dependencies (fun _ => none) (fun _ _ => none) ["==1.0"] =
      .ok (buildOverall [analyzePackagePy (fun _ => none) (fun _ _ => none)
        ⟨"", some "1.0"⟩]) := by
  have h := C10_empty_name_processed "==1.0"
    [] [['>', '='], ['<', '='], ['>'], ['<'], ['~', '=']] ['=', '=']
    ("1.0" : String).data (fun _ => none) (fun _ _ => none)
    rfl (by decide) (by simp)
  have e : String.mk (pyStripL ("1.0" : String).data) = "1.0" := by decide
  rw [e] at h
  exact h

/-! ### Claim C3 -/

theorem overallScore_eq_floor (results : List PackageHealthResponse)
    (h : results ≠ []) :
    overallScore results =
      ⌊((((results.map fun r => r.health_score).sum : ℤ) : ℚ)) / ((results.length : ℚ))⌋ := by
  unfold overallScore
  rw [if_neg h, Rat.floor_intCast_div_natCast]
  exact Int.fdiv_eq_ediv _ (Int.natCast_nonneg _)

/-- Claim C3: the overall health score is the integer floor of the average
of the per-package scores for a non-empty batch (e.g. 100, 50, 30 give 60)
and `0` for an empty batch, and both batch endpoints report exactly
`overallScore` of their (never empty) package list. -/
theorem C3_overall_floor_average :
    (∀ results : List PackageHealthResponse, results ≠ [] →
       overallScore results =
         ⌊((((results.map fun r => r.health_score).sum : ℤ) : ℚ)) / ((results.length : ℚ))⌋)
  ∧ overallScore [] = 0
  ∧ overallScore [samplePkg 100, samplePkg 50, samplePkg 30] = 60
  ∧ (∀ (pypiO : String → Option PyPIResp) (osvO : String → String → Option OSVResp)
       (entries : List String) (r : OverallHealthResponse),
       analyze_python_dependencies pypiO osvO entries = .ok r →
       r.packages ≠ [] ∧ r.overall_health_score = overallScore r.packages)
  ∧ (∀ (npmO : String → Option NpmResp) (osvO : String → String → Option OSVResp)
       (deps devDeps : List (String × String)) (r : OverallHealthResponse),
       analyze_npm_dependencies npmO osvO deps devDeps = .ok r →
       r.packages ≠ [] ∧ r.overall_health_score = overallScore r.packages) := by
  refine ⟨overallScore_eq_floor, rfl, by decide, ?_, ?_⟩
  · intro pO oO entries r h
    simp only [analyze_python_dependencies] at h
    split at h
    · cases h
    · next hc =>
      injection h with h
      subst h
      exact ⟨by simpa [buildOverall] using hc, rfl⟩
  · intro nO oO deps devDeps r h
    simp only [analyze_npm_dependencies] at h
    split at h
    · cases h
    · next hc =>
      injection h with h
      subst h
      exact ⟨by simpa [buildOverall] using hc, rfl⟩

/-- Witness for C3 at the example scores 100, 50, 30 and at a concrete
one-package request with failing oracles. -/
theorem C3_overall_floor_average_witness :
    ([samplePkg 100, samplePkg 50, samplePkg 30] : List PackageHealthResponse) ≠ [] ∧
    overallScore [samplePkg 100, samplePkg 50, samplePkg 30] =
      ⌊(((([samplePkg 100, samplePkg 50, samplePkg 30].map
            fun r => r.health_score).sum : ℤ) : ℚ)) / (([samplePkg 100, samplePkg 50, samplePkg 30].length : ℚ))⌋ ∧
    ((buildOverall [analyzePackagePy (fun _ => none) (fun _ _ => none)
        ⟨"a", some "1"⟩]).packages ≠ [] ∧
      (buildOverall [analyzePackagePy (fun _ => none) (fun _ _ => none)
        ⟨"a", some "1"⟩]).overall_health_score =
        overallScore (buildOverall [analyzePackagePy (fun _ => none) (fun _ _ => none)
          ⟨"a", some "1"⟩]).packages) :=
  ⟨by decide,
   C3_overall_floor_average.1 _ (by decide),
   C3_overall_floor_average.2.2.2.1 (fun _ => none) (fun _ _ => none) ["a==1"] _ rfl⟩

/-! ### Claim C5 -/

theorem check_pypi_failure (resp : Option PyPIResp) (cv : Option String)
    (h : pypiFailure resp) : check_pypi_package resp cv = ⟨none, false, []⟩ := by
  rcases h with rfl | ⟨r, rfl, hr⟩
  · rfl
  · by_cases h200 : r.status = 200
    · rcases hr with hst | hiv
      · exact absurd h200 hst
      · simp only [check_pypi_package]
        rw [if_pos h200, hiv]
    · simp only [check_pypi_package]
      rw [if_neg h200]

theorem check_osv_failure (osvO : String → String → Option OSVResp)
    (name eco : String)
    (h : osvFailure (osvO name (if eco = "python" then "PyPI" else "npm"))) :
    check_vulnerabilities_osv osvO name eco = [] := by
  rcases h with heq | ⟨r, heq, hr⟩
  · simp only [check_vulnerabilities_osv, heq]
  · simp only [check_vulnerabilities_osv, heq]
    rw [if_neg hr]

/-- Claim C5: any registry or vulnerability lookup failure (raised
exception, non-success status, malformed body) degrades to the neutral
result, the per-package pipeline still produces a complete well-formed
`PackageHealthResponse`, and the batch endpoint never turns a lookup
failure into an error. -/
theorem C5_lookup_failure_degrades :
    (∀ (resp : Option PyPIResp) (cv : Option String),
       pypiFailure resp → check_pypi_package resp cv = ⟨none, false, []⟩)
  ∧ (∀ (osvO : String → String → Option OSVResp) (name eco : String),
       osvFailure (osvO name (if eco = "python" then "PyPI" else "npm")) →
       check_vulnerabilities_osv osvO name eco = [])
  ∧ (∀ (pypiO : String → Option PyPIResp) (osvO : String → String → Option OSVResp)
       (pkg : PackageDependency),
       pypiFailure (pypiO pkg.name) → osvFailure (osvO pkg.name "PyPI") →
       analyzePackagePy pypiO osvO pkg =
         { name := pkg.name, current_version := pkg.version, latest_version := none,
           is_outdated := false, has_vulnerabilities := false, vulnerability_count := 0,
           is_deprecated := false, health_score := 100,
           recommendation := "✅ Package is healthy and up-to-date.",
           vulnerabilities := [] })
  ∧ (∀ (pypiO : String → Option PyPIResp) (osvO : String → String → Option OSVResp)
       (entries : List String),
       entries.filterMap parseEntry ≠ [] →
       ∃ r, analyze_python_dependencies pypiO osvO entries = .ok r) := by
  refine ⟨check_pypi_failure, check_osv_failure, ?_, ?_⟩
  · intro pO oO pkg h1 h2
    have hp := check_pypi_failure (pO pkg.name) pkg.version h1
    have hv := check_osv_failure oO pkg.name "python" (by simpa using h2)
    simp only [analyzePackagePy, hp, hv]
    rfl
  · intro pO oO entries h
    simp only [analyze_python_dependencies]
    rw [if_neg h]
    exact ⟨_, rfl⟩

/-- Witness for C5: a simulated network error (`none` responses) on a
concrete package and a concrete one-entry batch. -/
theorem C5_lookup_failure_degrades_witness :
    check_pypi_package none (some "2.25.0") = ⟨none, false, []⟩ ∧
    analyzePackagePy (fun _ => none) (fun _ _ => none) ⟨"requests", some "2.25.0"⟩ =
      { name := "requests", current_version := some "2.25.0", latest_version := none,
        is_outdated := false, has_vulnerabilities := false, vulnerability_count := 0,
        is_deprecated := false, health_score := 100,
        recommendation := "✅ Package is healthy and up-to-date.",
        vulnerabilities := [] } ∧
    (∃ r, analyze_python_dependencies (fun _ => none) (fun _ _ => none)
      ["requests==2.25.0"] = .ok r) :=
  ⟨C5_lookup_failure_degrades.1 none (some "2.25.0") (Or.inl rfl),
   C5_lookup_failure_degrades.2.2.1 (fun _ => none) (fun _ _ => none)
     ⟨"requests", some "2.25.0"⟩ (Or.inl rfl) (Or.inl rfl),
   C5_lookup_failure_degrades.2.2.2 (fun _ => none) (fun _ _ => none)
     ["requests==2.25.0"] (by decide)⟩

/-! ### Claim C6 -/

/-- Claim C6: blank and `#`-comment entries are skipped; a batch that
parses to zero dependencies is a validation error whatever the oracles
answer (so before any external call), and an invalid ecosystem selector is
likewise rejected independently of the oracles. -/
theorem C6_validation_before_lookup :
    (∀ s : String, pyStripL s.data = [] ∨ (pyStripL s.data).head? = some '#' →
       parseEntry s = none)
  ∧ (∀ (pypiO : String → Option PyPIResp) (osvO : String → String → Option OSVResp)
       (entries : List String), entries.filterMap parseEntry = [] →
       analyze_python_dependencies pypiO osvO entries =
         .error "No valid packages found in the provided content")
  ∧ (∀ (pypiO : String → Option PyPIResp) (npmO : String → Option NpmResp)
       (osvO : String → String → Option OSVResp) (pkg : PackageDependency)
       (eco : String), eco ≠ "python" → eco ≠ "npm" →
       check_single_package pypiO npmO osvO pkg eco =
         .error "Ecosystem must be 'python' or 'npm'") := by
  refine ⟨?_, ?_, ?_⟩
  · intro s h
    unfold parseEntry
    rcases h with h | h
    · rw [if_pos h]
    · by_cases he : pyStripL s.data = []
      · rw [if_pos he]
      · rw [if_neg he, if_pos h]
  · intro pO oO entries h
    simp only [analyze_python_dependencies]
    rw [if_pos h]
  · intro pO nO oO pkg eco h1 h2
    unfold check_single_package
    rw [if_pos ⟨h1, h2⟩]

/-- Witness for C6: a blank entry, a comment entry, an all-skipped batch,
and the invalid ecosystem `"ruby"`. -/
theorem C6_validation_before_lookup_witness :
    parseEntry "   " = none ∧
    parseEntry "# comment" = none ∧
    analyze_python_dependencies (fun _ => none) (fun _ _ => none) ["   ", "# comment"] =
      .error "No valid packages found in the provided content" ∧
    check_single_package (fun _ => none) (fun _ => none) (fun _ _ => none)
      ⟨"left-pad", none⟩ "ruby" = .error "Ecosystem must be 'python' or 'npm'" :=
  ⟨C6_validation_before_lookup.1 "   " (Or.inl (by decide)),
   C6_validation_before_lookup.1 "# comment" (Or.inr (by decide)),
   C6_validation_before_lookup.2.1 (fun _ => none) (fun _ _ => none)
     ["   ", "# comment"] (by decide),
   C6_validation_before_lookup.2.2 (fun _ => none) (fun _ => none) (fun _ _ => none)
     ⟨"left-pad", none⟩ "ruby" (by decide) (by decide)⟩

/-! ### Association-list lemmas for the npm dictionary merge -/

theorem lookupVal_nil (n : String) : lookupVal [] n = none := rfl

theorem lookupVal_cons (d : String × String) (ds : List (String × String))
    (n : String) :
    lookupVal (d :: ds) n = if d.1 = n then some d.2 else lookupVal ds n := by
  by_cases h : d.1 = n
  · simp [lookupVal, List.find?_cons, h]
  · simp [lookupVal, List.find?_cons, h]

theorem lookupVal_append (l₁ l₂ : List (String × String)) (n : String) :
    lookupVal (l₁ ++ l₂) n =
      match lookupVal l₁ n with
      | some v => some v
      | none => lookupVal l₂ n := by
  induction l₁ with
  | nil => simp [lookupVal_nil]
  | cons d ds ih =>
    rw [List.cons_append, lookupVal_cons, lookupVal_cons]
    by_cases h : d.1 = n
    · rw [if_pos h, if_pos h]
    · rw [if_neg h, if_neg h, ih]

theorem lookupVal_filter (q : String × String → Bool) (n : String) :
    ∀ (l : List (String × String)), (∀ p, p.1 = n → q p = true) →
      lookupVal (l.filter q) n = lookupVal l n := by
  intro l
  induction l with
  | nil => intro _; rfl
  | cons d ds ih =>
    intro h
    rw [List.filter_cons]
    by_cases hd : d.1 = n
    · rw [if_pos (h d hd), lookupVal_cons, lookupVal_cons, if_pos hd, if_pos hd]
    · by_cases hq : q d = true
      · rw [if_pos hq, lookupVal_cons, lookupVal_cons, if_neg hd, if_neg hd, ih h]
      · rw [if_neg hq, lookupVal_cons, if_neg hd, ih h]

theorem lookupVal_map_merge (dev : List (String × String)) (n : String) :
    ∀ (ds : List (String × String)),
      lookupVal (ds.map (fun p =>
        match lookupVal dev p.1 with
        | some v => (p.1, v)
        | none => p)) n =
      match lookupVal ds n with
      | some w => some ((lookupVal dev n).getD w)
      | none => none := by
  intro ds
  induction ds with
  | nil => rfl
  | cons d t ih =>
    rcases hdev : lookupVal dev d.1 with _ | v
    · rw [List.map_cons]
      simp only [hdev]
      rw [lookupVal_cons, lookupVal_cons]
      by_cases hd : d.1 = n
      · subst hd
        rw [if_pos rfl, if_pos rfl, hdev]
        rfl
      · rw [if_neg hd, if_neg hd, ih]
    · rw [List.map_cons]
      simp only [hdev]
      rw [lookupVal_cons, lookupVal_cons]
      by_cases hd : d.1 = n
      · subst hd
        rw [if_pos rfl, if_pos rfl, hdev]
        rfl
      · rw [if_neg hd, if_neg hd, ih]

theorem mergeDeps_dev_override (deps devDeps : List (String × String)) (n v : String)
    (h : lookupVal devDeps n = some v) :
    lookupVal (mergeDeps deps devDeps) n = some v := by
  unfold mergeDeps
  rw [lookupVal_append, lookupVal_map_merge]
  rcases hd : lookupVal deps n with _ | w
  · show lookupVal (devDeps.filter fun p => (lookupVal deps p.1).isNone) n = some v
    rw [lookupVal_filter]
    · exact h
    · intro p hp
      rw [hp, hd]
      rfl
  · rw [h]
    rfl

theorem dropWhile_strip_append (rest : List Char)
    (hrest : ∀ c, rest.head? = some c → npmStripChar c = false) :
    ∀ pre : List Char, (∀ c ∈ pre, npmStripChar c = true) →
      (pre ++ rest).dropWhile npmStripChar = rest := by
  intro pre
  induction pre with
  | nil =>
    intro _
    cases rest with
    | nil => rfl
    | cons r rs =>
      have h := hrest r rfl
      simp [List.dropWhile_cons, h]
  | cons c cs ih =>
    intro hp
    have hc := hp c (List.mem_cons_self _ _)
    rw [List.cons_append, List.dropWhile_cons, if_pos hc]
    exact ih (fun x hx => hp x (List.mem_cons_of_mem _ hx))

/-! ### Claim C7 -/

/-- Claim C7: the npm endpoint merges the two optional dependency maps with
dev entries overriding on name collision, keeps each merged name as-is and
obtains the declared version by stripping the leading run of `^ ~ > = <`
characters, and an empty merged result is a validation error. -/
theorem C7_npm_merge_and_strip :
    (∀ (deps devDeps : List (String × String)) (n v : String),
       lookupVal devDeps n = some v →
       lookupVal (mergeDeps deps devDeps) n = some v)
  ∧ (∀ (pre rest : List Char),
       (∀ c ∈ pre, npmStripChar c = true) →
       (∀ c, rest.head? = some c → npmStripChar c = false) →
       lstripVer (String.mk (pre ++ rest)) = String.mk rest)
  ∧ (∀ (npmO : String → Option NpmResp) (osvO : String → String → Option OSVResp)
       (deps devDeps : List (String × String)) (r : OverallHealthResponse),
       analyze_npm_dependencies npmO osvO deps devDeps = .ok r →
       r.packages.map (fun p => p.name) = (mergeDeps deps devDeps).map (fun p => p.1) ∧
       r.packages.map (fun p => p.current_version) =
         (mergeDeps deps devDeps).map (fun p => some (lstripVer p.2)))
  ∧ (∀ (npmO : String → Option NpmResp) (osvO : String → String → Option OSVResp)
       (deps devDeps : List (String × String)),
       mergeDeps deps devDeps = [] →
       analyze_npm_dependencies npmO osvO deps devDeps =
         .error "No valid packages found in the provided content") := by
  refine ⟨mergeDeps_dev_override, ?_, ?_, ?_⟩
  · intro pre rest hpre hrest
    exact congrArg String.mk (dropWhile_strip_append rest hrest pre hpre)
  · intro nO oO deps devDeps r h
    simp only [analyze_npm_dependencies] at h
    split at h
    · cases h
    · injection h with h
      subst h
      refine ⟨?_, ?_⟩ <;>
      · simp only [buildOverall, npmParse, List.map_map]
        rfl
  · intro nO oO deps devDeps h
    simp only [analyze_npm_dependencies, npmParse, h, List.map_nil]
    rw [if_pos trivial]

/-- Witness for C7: a collision on `"a"` (dev wins), stripping `"^2.0"`,
the endpoint-level name/version correspondence with failing oracles, and
the empty-merge validation error. -/
theorem C7_npm_merge_and_strip_witness :
    lookupVal (mergeDeps [("a", "1.0")] [("a", "^2.0"), ("b", "~3.0")]) "a" =
      some "^2.0" ∧
    lstripVer "^2.0" = "2.0" ∧
    ((buildOverall ((npmParse [("a", "1.0")] [("a", "^2.0"), ("b", "~3.0")]).map
        (analyzePackageNpm (fun _ => none) (fun _ _ => none)))).packages.map
          (fun p => p.name) =
      (mergeDeps [("a", "1.0")] [("a", "^2.0"), ("b", "~3.0")]).map (fun p => p.1) ∧
     (buildOverall ((npmParse [("a", "1.0")] [("a", "^2.0"), ("b", "~3.0")]).map
        (analyzePackageNpm (fun _ => none) (fun _ _ => none)))).packages.map
          (fun p => p.current_version) =
      (mergeDeps [("a", "1.0")] [("a", "^2.0"), ("b", "~3.0")]).map
        (fun p => some (lstripVer p.2))) ∧
    analyze_npm_dependencies (fun _ => none) (fun _ _ => none) [] [] =
      .error "No valid packages found in the provided content" := by
  refine ⟨C7_npm_merge_and_strip.1 [("a", "1.0")] [("a", "^2.0"), ("b", "~3.0")]
    "a" "^2.0" (by decide), ?_,
    C7_npm_merge_and_strip.2.2.1 (fun _ => none) (fun _ _ => none)
      [("a", "1.0")] [("a", "^2.0"), ("b", "~3.0")] _ rfl,
    C7_npm_merge_and_strip.2.2.2 (fun _ => none) (fun _ _ => none) [] [] (by decide)⟩
  have h := C7_npm_merge_and_strip.2.1 ['^'] ("2.0" : String).data
    (by decide) (by decide)
  have e1 : String.mk (['^'] ++ ("2.0" : String).data) = "^2.0" := by decide
  have e2 : String.mk ("2.0" : String).data = "2.0" := by decide
  rw [e1, e2] at h
  exact h

/-! ### Claim C8 -/

theorem osvMap_eq_specMapVuln (v : OSVVuln) : osvMap v = specMapVuln v := by
  rcases v with ⟨vid, vsum, vsev, vpub⟩
  rcases vsev with _ | (_ | ⟨⟨st⟩, rest⟩) <;> rcases vsum with _ | s <;>
    first
    | rfl
    | (rcases st with _ | t <;> rfl)

/-- Claim C8: each advisory is mapped to a record whose summary defaults to
"No summary available" when absent and whose severity is the type of the
first entry of the severity field, defaulting to "UNKNOWN" when the field
or its first entry is missing; a successful OSV response is mapped
advisory by advisory. -/
theorem C8_advisory_defaults :
    (∀ v : OSVVuln, osvMap v = specMapVuln v)
  ∧ (∀ (osvO : String → String → Option OSVResp) (name eco : String)
       (vulns : List OSVVuln),
       osvO name (if eco = "python" then "PyPI" else "npm") = some ⟨200, vulns⟩ →
       check_vulnerabilities_osv osvO name eco = vulns.map specMapVuln) := by
  refine ⟨osvMap_eq_specMapVuln, ?_⟩
  intro oO name eco vulns h
  simp only [check_vulnerabilities_osv, h]
  rw [if_pos trivial, funext osvMap_eq_specMapVuln]

/-- Witness for C8: a concrete OSV response holding advisories that
exercise every defaulting branch. -/
theorem C8_advisory_defaults_witness :
    osvMap ⟨some "GHSA-1", none, none, none⟩ =
      specMapVuln ⟨some "GHSA-1", none, none, none⟩ ∧
    check_vulnerabilities_osv
      (fun _ _ => some ⟨200,
        [⟨some "GHSA-1", none, none, none⟩,
         ⟨some "GHSA-2", some "A bad bug", some [⟨some "CVSS_V3"⟩], some "2021-01-01"⟩,
         ⟨none, some "No severity list", some [], some ""⟩,
         ⟨none, none, some [⟨none⟩], none⟩]⟩)
      "flask" "python" =
      [⟨some "GHSA-1", none, none, none⟩,
       ⟨some "GHSA-2", some "A bad bug", some [⟨some "CVSS_V3"⟩], some "2021-01-01"⟩,
       ⟨none, some "No severity list", some [], some ""⟩,
       ⟨none, none, some [⟨none⟩], none⟩].map specMapVuln :=
  ⟨C8_advisory_defaults.1 ⟨some "GHSA-1", none, none, none⟩,
   C8_advisory_defaults.2
     (fun _ _ => some ⟨200,
       [⟨some "GHSA-1", none, none, none⟩,
        ⟨some "GHSA-2", some "A bad bug", some [⟨some "CVSS_V3"⟩], some "2021-01-01"⟩,
        ⟨none, some "No severity list", some [], some ""⟩,
        ⟨none, none, some [⟨none⟩], none⟩]⟩)
     "flask" "python" _ rfl⟩
